import Mathlib

set_option maxRecDepth 100000

/-!
Shallow embedding of `SwitchProbabilityCalculator`
(src/agents-service/segmentation_agent/switch_probability.py).

Python floats are modelled as exact rationals (`ℚ`); the float value
`1e-6` is the rational `1/1000000`.  Values that pandas represents as
`NaN` (rolling variances over an incomplete window, and means of
all-`NaN` series) are modelled as `Option ℚ` with `none` for `NaN`,
and the `NaN`-propagation / skip-`NaN` behaviour of the pandas
operations involved is reproduced explicitly at each use site.
`round(x, n)` and the `"%.2f"` format are modelled as exact
round-half-to-even on rationals.
-/

namespace SwitchProb

/-- Mean of a list of rationals (`numpy.mean` / `pandas.Series.mean`
on a fully valid series); division by zero on the empty list yields
`0` under rational division, but every use below is guarded to
non-empty lists exactly as in the source. -/
def qmean (l : List ℚ) : ℚ := l.sum / (l.length : ℚ)

/-- Sign of a rational, as `numpy.sign` computes it (1, -1 or 0). -/
def qsign (x : ℚ) : ℚ := if 0 < x then 1 else if x < 0 then -1 else 0

/-- Absolute value, as Python `abs`. -/
def pabs (x : ℚ) : ℚ := if x < 0 then -x else x

/-- Sample variance with `ddof = 1` (the default of
`pandas.Series.var` and `Rolling.var`): sum of squared deviations from
the mean divided by `length - 1`. -/
def sampleVar (ys : List ℚ) : ℚ :=
  ((ys.map (fun y => (y - qmean ys) ^ 2)).sum) / ((ys.length : ℚ) - 1)

/-- The window of the last `w` elements ending at index `i` (used by
the rolling-variance computation). -/
def windowSlice (w i : ℕ) (xs : List ℚ) : List ℚ :=
  (xs.take (i + 1)).drop (i + 1 - w)

/-- `Series.rolling(w).var()`: entry `i` is the sample variance of the
`w`-element window ending at `i`, and `NaN` (`none`) while fewer than
`w` observations are available.  For `w ≤ 1` the result is `NaN`
everywhere (`ddof = 1` leaves no degrees of freedom). -/
def rollingVar (w : ℕ) (xs : List ℚ) : List (Option ℚ) :=
  (List.range xs.length).map
    (fun i => if 2 ≤ w ∧ w ≤ i + 1 then some (sampleVar (windowSlice w i xs)) else none)

/-- `Series.mean()` with its default `skipna=True`: the mean of the
non-`NaN` entries, or `NaN` (`none`) if there are none. -/
def meanSkip (l : List (Option ℚ)) : Option ℚ :=
  let vs := l.filterMap id
  if vs.isEmpty then none else some (qmean vs)

/-- `.iloc[-n:]`: the last `n` elements. -/
def lastN (n : ℕ) (l : List α) : List α := l.drop (l.length - n)

/-- Duplicate-free projection keeping first occurrences, as
`pandas.unique` (order of appearance). -/
def uniqFirst (l : List ℕ) : List ℕ :=
  l.foldl (fun acc x => if x ∈ acc then acc else acc ++ [x]) []

/-- Insert a day into a sorted duplicate-free list of days. -/
def insertDay (d : ℤ) : List ℤ → List ℤ
  | [] => [d]
  | x :: xs => if d < x then d :: x :: xs else if d = x then x :: xs else x :: insertDay d xs

/-- Sorted list of distinct days, as the (sorted) group keys of
`DataFrame.groupby(timestamp.dt.date)`. -/
def sortedDays (l : List ℤ) : List ℤ := l.foldr insertDay []

/-- Round half to even to an integer, the rounding used by Python's
`round` and `format` on exactly representable values. -/
def rhe (x : ℚ) : ℤ :=
  let f := ⌊x⌋
  let r := x - (f : ℚ)
  if r < 1 / 2 then f
  else if 1 / 2 < r then f + 1
  else if f % 2 = 0 then f else f + 1

/-- Python `round(x, d)`: round half to even at `d` decimal places. -/
def roundTo (d : ℕ) (x : ℚ) : ℚ := ((rhe (x * 10 ^ d) : ℚ)) / 10 ^ d

/-!  The data model.  A trade row carries the fields of `trades_df`
that `calculate` reads: `timestamp` (split into calendar day and an
intra-day time used only for ordering), `instrument`, `side` and
`quantity`.  The `price` column and the whole `positions_df` argument
are never read by the calculator, so positions are carried opaquely. -/

/-- One row of `trades_df`, with the timestamp already parsed.
`side = true` models `side == 'BUY'` (any other value takes the
`else` / SELL branch of the `signed_qty` lambda). -/
structure Trade where
  day : ℤ
  tod : ℕ
  instrument : ℕ
  side : Bool
  qty : ℚ
deriving DecidableEq, Repr

/-- One row of `trades_df` as supplied by the caller: `ts = none`
models a timestamp value that `pd.to_datetime` fails to parse
(raising inside the `try` block of `calculate`). -/
structure RawTrade where
  ts : Option (ℤ × ℕ)
  instrument : ℕ
  side : Bool
  qty : ℚ
deriving DecidableEq, Repr

/-- `positions_df`: instrument to net exposure.  It is accepted and
passed to `_detect_change_points`, which never reads it. -/
abbrev Positions := List (ℕ × ℚ)

/-- The optional pre-computed features dict; each field is `none` when
the corresponding key is absent. -/
structure FeatureDict where
  momentum_beta_20d : Option ℚ
  holding_period_avg : Option ℚ
  aggressiveness : Option ℚ
deriving DecidableEq, Repr

/-- The constructor configuration.  `lookback_days` is stored by
`__init__` but never read by `calculate`, so it is omitted. -/
structure Config where
  windowSize : ℕ
  baselineProb : ℚ
deriving DecidableEq, Repr

/-- The returned dict. -/
structure SwitchResult where
  switch_prob : ℚ
  pattern_instability : ℚ
  change_point : ℚ
  momentum_shift : ℚ
  flip_acceleration : ℚ
  feature_drift : ℚ
  reasoning : String
deriving DecidableEq, Repr

/-- Stable insertion of a trade into a timestamp-sorted list (a trade
goes before the first trade with a timestamp not smaller than its
own). -/
def insertTrade (t : Trade) : List Trade → List Trade
  | [] => [t]
  | x :: xs =>
      if t.day < x.day ∨ (t.day = x.day ∧ t.tod ≤ x.tod) then t :: x :: xs
      else x :: insertTrade t xs

/-- `sort_values('timestamp')`: stable sort by timestamp (ties kept in
input order, the reading this spec fixes for the tie-order ambiguity
it notes). -/
def sortByTs (l : List Trade) : List Trade := l.foldr insertTrade []

/-- `x['quantity'] if x['side'] == 'BUY' else -x['quantity']`. -/
def signedQty (t : Trade) : ℚ := if t.side then t.qty else -t.qty

/-- Sorted distinct calendar days of a trade list (the group keys of
`groupby(timestamp.dt.date)`). -/
def tradeDays (l : List Trade) : List ℤ := sortedDays (l.map (·.day))

/-- Total traded quantity on day `d` (`agg quantity: sum`). -/
def dayVolume (l : List Trade) (d : ℤ) : ℚ :=
  ((l.filter (·.day = d)).map (·.qty)).sum

/-- Number of distinct instruments traded on day `d`
(`agg instrument: nunique`). -/
def dayInstr (l : List Trade) (d : ℤ) : ℕ :=
  (uniqFirst ((l.filter (·.day = d)).map (·.instrument))).length

/-- Net signed quantity on day `d` (`groupby(...)['signed_qty'].sum()`). -/
def dayNet (l : List Trade) (d : ℤ) : ℚ :=
  ((l.filter (·.day = d)).map signedQty).sum

/-- The per-day frame built at the top of
`_compute_pattern_instability`: for each calendar day, daily volume
and distinct-instrument count. -/
def dailyAgg (l : List Trade) : List (ℚ × ℚ) :=
  (tradeDays l).map (fun d => (dayVolume l d, (dayInstr l d : ℚ)))

/-- The daily net signed quantity series of
`_compute_momentum_shifts`. -/
def dailyNetList (l : List Trade) : List ℚ :=
  (tradeDays l).map (dayNet l)

/-!  `_compute_daily_flips`.  For each instrument (in order of first
appearance, as `Series.unique`), the instrument's trades are sorted by
timestamp, the running signed position and its sign are formed, and a
trade is flagged when `position_sign.diff() != 0` at its row.  Note
that `diff()` yields `NaN` at the first row and `NaN != 0` is `True`
in pandas, so the first trade of every instrument is always flagged.
Flagged trades are tallied per calendar day into a dict that keeps
Python's insertion order. -/

/-- Days of the flagged trades of one instrument, in trade order.
`cum` is the running position before the next trade and `prev` the
previous row's position sign (`none` at the first row, whose `diff()`
is `NaN` and therefore compares `!= 0` as `True`). -/
def flipDaysGo (cum : ℚ) (prev : Option ℚ) : List Trade → List ℤ
  | [] => []
  | t :: ts =>
      let c2 := cum + signedQty t
      let s := qsign c2
      match prev with
      | none => t.day :: flipDaysGo c2 (some s) ts
      | some p =>
          if s = p then flipDaysGo c2 (some s) ts
          else t.day :: flipDaysGo c2 (some s) ts

/-- Add one flip on day `d` to the insertion-ordered tally
(`daily_flips[date_str] = daily_flips.get(date_str, 0) + 1`). -/
def bumpDay (acc : List (ℤ × ℕ)) (d : ℤ) : List (ℤ × ℕ) :=
  if acc.any (fun p => p.1 = d) then
    acc.map (fun p => if p.1 = d then (p.1, p.2 + 1) else p)
  else acc ++ [(d, 1)]

/-- `_compute_daily_flips`: insertion-ordered association list from
calendar day to flip count. -/
def computeDailyFlips (l : List Trade) : List (ℤ × ℕ) :=
  (uniqFirst (l.map (·.instrument))).foldl
    (fun acc instr =>
      let instTrades := sortByTs (l.filter (·.instrument = instr))
      (flipDaysGo 0 none instTrades).foldl bumpDay acc)
    []

/-!  The five scorers. -/

/-- `recent / (baseline + 1e-6)`, with `NaN` (`none`) propagating as
in float arithmetic. -/
def ratioOpt (recent total : Option ℚ) : Option ℚ :=
  match recent, total with
  | some r, some b => some (r / (b + 1 / 1000000))
  | _, _ => none

/-- `np.mean([a, b])`, `NaN` propagating. -/
def avgOpt : Option ℚ → Option ℚ → Option ℚ
  | some a, some b => some ((a + b) / 2)
  | _, _ => none

/-- The final step of `_compute_pattern_instability`:
`min(0.30, variance_score * 0.10)` where Python's two-argument `min`
returns its first argument when the comparison with `NaN` is false. -/
def patternFromScore : Option ℚ → ℚ
  | some v => min (3 / 10) (v * (1 / 10))
  | none => 3 / 10

/-- `_compute_pattern_instability` (score 1, documented 0.0-0.30). -/
def patternInstability (w : ℕ) (l : List Trade) : ℚ :=
  let daily := dailyAgg l
  if daily.length < 7 then 1 / 20
  else
    let volVars := rollingVar w (daily.map (·.1))
    let instrVars := rollingVar w (daily.map (·.2))
    let volRatio := ratioOpt (meanSkip (lastN 7 volVars)) (meanSkip volVars)
    let instrRatio := ratioOpt (meanSkip (lastN 7 instrVars)) (meanSkip instrVars)
    patternFromScore (avgOpt volRatio instrRatio)

/-- `_detect_change_points` (score 2, documented 0.0-0.25) as the code
actually behaves.  Line 235 reads `pd.Series(daily_flips.values)` —
the dict's bound `values` method, not `daily_flips.values()` — which
builds a one-element object-dtype series wrapping the method; the
subsequent `flip_series.mean()` raises a `TypeError`, the scorer's
`except` clause catches it, and `0.05` is returned.  The CUSUM test
and recency tiers of lines 236-274 are therefore dead code, and the
scorer returns `0.05` on every input (`positions_df` is never read). -/
def detectChangePoints (l : List Trade) : ℚ :=
  let flips := computeDailyFlips l
  if flips.length < 20 then 1 / 20
  else 1 / 20

/-- `(signs.diff() != 0).sum()`: the count of rows whose sign differs
from the previous row's, where the first row always counts because its
`diff()` is `NaN` and `NaN != 0` is `True`. -/
def countAdjNe (prev : ℚ) : List ℚ → ℕ
  | [] => 0
  | x :: xs => (if x = prev then 0 else 1) + countAdjNe x xs

/-- Total `diff() != 0` count over a sign series. -/
def signChangeCountCode (signs : List ℚ) : ℕ :=
  match signs with
  | [] => 0
  | s :: rest => 1 + countAdjNe s rest

/-- `_compute_momentum_shifts` (score 3, documented 0.0-0.20). -/
def momentumShifts (l : List Trade) : ℚ :=
  let dn := dailyNetList l
  if dn.length < 14 then 1 / 20
  else
    let signs := dn.map qsign
    let rate : ℚ := (signChangeCountCode signs : ℚ) / (dn.length : ℚ)
    min (1 / 5) (rate * (2 / 5))

/-- `_compute_flip_acceleration` (score 4, documented 0.0-0.15). -/
def flipAcceleration (l : List Trade) : ℚ :=
  let flips := computeDailyFlips l
  if flips.length < 21 then 1 / 20
  else
    let vals : List ℚ := flips.map (fun p => (p.2 : ℚ))
    let recentRate := qmean (lastN 7 vals)
    let baselineRate := qmean (vals.take (vals.length - 7))
    if baselineRate < 1 / 1000000 then 1 / 20
    else
      let accel := recentRate / baselineRate
      if accel > 3 / 2 then 3 / 20
      else if accel > 6 / 5 then 1 / 10
      else if accel > 1 then 1 / 20
      else 1 / 50

/-- `_compute_feature_drift` (score 5, documented 0.0-0.10); `none`
models both `features=None` and the falsy empty dict. -/
def featureDrift : Option FeatureDict → ℚ
  | none => 0
  | some f =>
      let s1 : ℚ := match f.momentum_beta_20d with
        | some b => if pabs b < 1 / 5 ∨ pabs b > 9 / 10 then 3 / 100 else 0
        | none => 0
      let s2 : ℚ := match f.holding_period_avg with
        | some h => if h < 2 ∨ h > 60 then 3 / 100 else 0
        | none => 0
      let s3 : ℚ := match f.aggressiveness with
        | some a => if a < 1 / 5 ∨ a > 9 / 10 then 4 / 100 else 0
        | none => 0
      min (1 / 10) (s1 + s2 + s3)

/-!  The aggregator: `_build_reasoning` and `calculate`. -/

/-- Two-digit zero-padded decimal fraction. -/
def pad2 (n : ℕ) : String := (if n < 10 then "0" else "") ++ toString n

/-- The `"%.2f"`-style float format used in the reasoning strings, for
the non-negative values it is applied to. -/
def fmt2 (x : ℚ) : String :=
  let n := (rhe (x * 100)).toNat
  toString (n / 100) ++ "." ++ pad2 (n % 100)

/-- `_build_reasoning`. -/
def buildReasoning (pattern cp momentum flip drift final : ℚ) : String :=
  let reasons : List String :=
    (if pattern > 3 / 20 then ["High pattern instability (" ++ fmt2 pattern ++ ")"]
     else if pattern > 1 / 10 then ["Moderate pattern variance (" ++ fmt2 pattern ++ ")"]
     else [])
    ++ (if cp > 3 / 20 then ["Recent regime change detected (" ++ fmt2 cp ++ ")"]
        else if cp > 1 / 10 then ["Possible regime shift (" ++ fmt2 cp ++ ")"]
        else [])
    ++ (if momentum > 1 / 10 then ["Frequent direction changes (" ++ fmt2 momentum ++ ")"]
        else [])
    ++ (if flip > 1 / 10 then ["Accelerating position flips (" ++ fmt2 flip ++ ")"]
        else [])
    ++ (if drift > 1 / 20 then ["Significant feature drift (" ++ fmt2 drift ++ ")"]
        else [])
  let reasons := if reasons.isEmpty then ["Stable behavior patterns"] else reasons
  let assessment :=
    if final > 3 / 5 then "HIGH risk of strategy switch"
    else if final > 2 / 5 then "MODERATE risk of strategy switch"
    else "LOW risk of strategy switch"
  assessment ++ ". Factors: " ++ String.intercalate ", " reasons ++ "."

/-- `_get_baseline_result`: note that `switch_prob` is the configured
baseline itself, with no clamping and no rounding. -/
def baselineResult (cfg : Config) (reason : String) : SwitchResult :=
  ⟨cfg.baselineProb, 0, 0, 0, 0, 0, "Using baseline probability. " ++ reason⟩

/-- `calculate` on structurally valid (already parsed) input.  The
positions argument is accepted and never read, as in the source
(`positions_df` is only ever handed to `_detect_change_points`, which
ignores it). -/
def calculate (cfg : Config) (trades : List Trade) (_positions : Positions)
    (features : Option FeatureDict) : SwitchResult :=
  if trades = [] then baselineResult cfg "No trading history"
  else
    let sorted := sortByTs trades
    let pattern := patternInstability cfg.windowSize sorted
    let cp := detectChangePoints sorted
    let momentum := momentumShifts sorted
    let flip := flipAcceleration sorted
    let drift := featureDrift features
    let sp := cfg.baselineProb + (pattern + cp + momentum + flip + drift)
    let sp := max (3 / 20) (min (17 / 20) sp)
    ⟨roundTo 2 sp, roundTo 3 pattern, roundTo 3 cp, roundTo 3 momentum,
      roundTo 3 flip, roundTo 3 drift,
      buildReasoning pattern cp momentum flip drift sp⟩

/-- `pd.to_datetime` over the timestamp column: fails if any row's
timestamp is unparseable. -/
def parseTrades : List RawTrade → Except String (List Trade)
  | [] => .ok []
  | r :: rs =>
      match r.ts with
      | none => .error "malformed timestamp"
      | some (d, t) =>
          match parseTrades rs with
          | .error e => .error e
          | .ok ts => .ok (⟨d, t, r.instrument, r.side, r.qty⟩ :: ts)

/-- The body of `calculate`'s `try` block over raw input: empty input
short-circuits to the baseline result; a timestamp that
`pd.to_datetime` cannot parse raises. -/
def calcBody (cfg : Config) (rts : List RawTrade) (positions : Positions)
    (features : Option FeatureDict) : Except String SwitchResult :=
  if rts = [] then .ok (baselineResult cfg "No trading history")
  else
    match parseTrades rts with
    | .error e => .error e
    | .ok ts => .ok (calculate cfg ts positions features)

/-- `calculate` over raw input including its top-level
`except Exception` handler, which maps any raised error to the
baseline result with an `Error: ...` reasoning. -/
def calcRawE (cfg : Config) (rts : List RawTrade) (positions : Positions)
    (features : Option FeatureDict) : Except String SwitchResult :=
  match calcBody cfg rts positions features with
  | .ok r => .ok r
  | .error e => .ok (baselineResult cfg ("Error: " ++ e))

/-- The total semantics of `calculate` over raw input (what the call
returns on every path, the handler included). -/
def calcTotal (cfg : Config) (rts : List RawTrade) (positions : Positions)
    (features : Option FeatureDict) : SwitchResult :=
  if rts = [] then baselineResult cfg "No trading history"
  else
    match parseTrades rts with
    | .error e => baselineResult cfg ("Error: " ++ e)
    | .ok ts => calculate cfg ts positions features

/-!  The CUSUM change-point detection of lines 236-274 of the source,
which is dead code behind the `pd.Series(daily_flips.values)` slip but
is what the specification describes.  It is embedded here, over the
flip-count series it was meant to receive, to exhibit what the scorer
would return were the slip fixed.  The series standard deviation is an
irrational square root in general, so it is taken as a parameter `σ`;
at the concrete series used below the variance is exactly `1`, so
`σ = 1` is exact. -/

/-- The CUSUM loop (lines 250-257): update the positive and negative
cumulative deviations, then flag the first index at which either
exceeds the threshold in absolute value. -/
def cusumGo (μ σ thr : ℚ) : List ℚ → ℚ → ℚ → ℕ → Option ℕ
  | [], _, _, _ => none
  | x :: rest, cpos, cneg, i =>
      let cpos := max 0 (cpos + (x - μ - σ / 2))
      let cneg := min 0 (cneg + (x - μ + σ / 2))
      if pabs cpos > thr ∨ pabs cneg > thr then some i
      else cusumGo μ σ thr rest cpos cneg (i + 1)

/-- The recency tiers of lines 265-272, as a function of
`days_since_change`. -/
def tierScore (a : ℕ) : ℚ :=
  if a ≤ 14 then 1 / 4 else if a ≤ 30 then 3 / 20 else if a ≤ 60 then 1 / 10 else 1 / 20

/-- Lines 231-274 of `_detect_change_points` as written (the dead
code), over a flip-count series `xs` with mean `μ` and sample standard
deviation `σ` (so `σ ^ 2 = sampleVar xs` at any intended use). -/
def intendedChangePoint (xs : List ℚ) (μ σ : ℚ) : ℚ :=
  if xs.length < 20 then 1 / 20
  else if σ < 1 / 1000000 then 1 / 20
  else
    match cusumGo μ σ (3 * σ) xs 0 0 0 with
    | none => 1 / 20
    | some i => tierScore (xs.length - i)

/-- The sign-change count as the specification's words define it: a
day-to-day change counts only when a long-bias day is followed by a
short-bias day or vice versa.  This definition follows the spec's
words, for comparison against `signChangeCountCode` taken from the
source. -/
def strictFlipCount (prev : ℚ) : List ℚ → ℕ
  | [] => 0
  | x :: xs =>
      (if (0 < prev ∧ x < 0) ∨ (prev < 0 ∧ 0 < x) then 1 else 0) + strictFlipCount x xs

/-- The momentum-shift score as the claim describes it (same formula
and insufficiency fallback, but `r` counting only strict long/short
day-to-day reversals).  Modelled from the spec's words, for comparison
with `momentumShifts` taken from the source. -/
def momentumShiftsSpec (l : List Trade) : ℚ :=
  let dn := dailyNetList l
  if dn.length < 14 then 1 / 20
  else
    let rate : ℚ :=
      ((match dn with
        | [] => 0
        | x :: xs => strictFlipCount x xs : ℕ) : ℚ) / (dn.length : ℚ)
    min (1 / 5) (rate * (2 / 5))

/-!  Concrete inputs used by the claims. -/

/-- The default configuration (`window_size = 14`,
`baseline_prob = 0.30`). -/
def defaultCfg : Config := ⟨14, 3 / 10⟩

/-- A single BUY trade. -/
def t0 : Trade := ⟨0, 0, 0, true, 1⟩

/-- The single BUY trade in raw (unparsed) form. -/
def rawT0 : RawTrade := ⟨some (0, 0), 0, true, 1⟩

/-- A raw trade whose timestamp `pd.to_datetime` cannot parse. -/
def badRawTrade : RawTrade := ⟨none, 0, true, 1⟩

/-- Fourteen consecutive days with one BUY of quantity 1 in a single
instrument each day. -/
def trades14 : List Trade := (List.range 14).map (fun d => ⟨(d : ℤ), 0, 0, true, 1⟩)

/-- Twenty-four days with one alternating-side trade of quantity 2
each day, then six alternating trades on day 24: its daily flip-count
series is one flip per day for 24 days, then six. -/
def c6Trades : List Trade :=
  ((List.range 24).map (fun d => ⟨(d : ℤ), 0, 0, d % 2 = 0, 2⟩))
  ++ ((List.range 6).map (fun k => ⟨24, k + 1, 0, k % 2 = 0, 2⟩))

/-- The daily flip-count series of `c6Trades`: flat at 1 for 24 days,
then jumping to 6 on the final day.  Its mean is `6/5` and its sample
variance is exactly `1`. -/
def c6Series : List ℚ := List.replicate 24 1 ++ [6]

/-- A configuration with `baseline_prob = 0.9`, outside `[0.15, 0.85]`
but accepted by the constructor. -/
def cfg90 : Config := ⟨14, 9 / 10⟩

/-!  Supporting lemmas: non-negativity of means and variances, and
order properties of the round-half-to-even rounding. -/

theorem qmean_nonneg {l : List ℚ} (h : ∀ x ∈ l, 0 ≤ x) : 0 ≤ qmean l := by
  unfold qmean
  exact div_nonneg (List.sum_nonneg h) (by positivity)

theorem sampleVar_nonneg (ys : List ℚ) : 0 ≤ sampleVar ys := by
  unfold sampleVar
  rcases ys with _ | ⟨a, tl⟩
  · simp
  · apply div_nonneg
    · apply List.sum_nonneg
      intro x hx
      obtain ⟨y, _, rfl⟩ := List.mem_map.1 hx
      positivity
    · have h1 : (1 : ℚ) ≤ ((a :: tl).length : ℚ) := by
        have : 1 ≤ (a :: tl).length := by simp
        exact_mod_cast this
      linarith

theorem rollingVar_nonneg {w : ℕ} {xs : List ℚ} {o : Option ℚ}
    (ho : o ∈ rollingVar w xs) {v : ℚ} (hv : o = some v) : 0 ≤ v := by
  unfold rollingVar at ho
  obtain ⟨i, _, hi⟩ := List.mem_map.1 ho
  subst hi
  split at hv
  · obtain rfl : sampleVar (windowSlice w i xs) = v := by
      exact Option.some.inj hv
    exact sampleVar_nonneg _
  · exact absurd hv (by simp)

theorem meanSkip_nonneg {l : List (Option ℚ)}
    (h : ∀ o ∈ l, ∀ v, o = some v → 0 ≤ v) {m : ℚ}
    (hm : meanSkip l = some m) : 0 ≤ m := by
  unfold meanSkip at hm
  dsimp only [] at hm
  split at hm
  · exact absurd hm (by simp)
  · obtain rfl : qmean (l.filterMap id) = m := Option.some.inj hm
    apply qmean_nonneg
    intro x hx
    obtain ⟨o, ho, hoo⟩ := List.mem_filterMap.1 hx
    exact h o ho x hoo

theorem lastN_mem {n : ℕ} {l : List α} {x : α} (h : x ∈ lastN n l) : x ∈ l :=
  List.drop_subset _ _ h

theorem ratioOpt_nonneg {r t : Option ℚ}
    (hr : ∀ v, r = some v → 0 ≤ v) (ht : ∀ v, t = some v → 0 ≤ v) :
    ∀ v, ratioOpt r t = some v → 0 ≤ v := by
  intro v hv
  rcases r with _ | a
  · exact absurd hv (by simp [ratioOpt])
  rcases t with _ | b
  · exact absurd hv (by simp [ratioOpt])
  have ha : 0 ≤ a := hr a rfl
  have hb : 0 ≤ b := ht b rfl
  obtain rfl : a / (b + 1 / 1000000) = v := by
    simpa [ratioOpt] using hv
  have hden : (0 : ℚ) ≤ b + 1 / 1000000 := by linarith
  exact div_nonneg ha hden

theorem avgOpt_nonneg {r t : Option ℚ}
    (hr : ∀ v, r = some v → 0 ≤ v) (ht : ∀ v, t = some v → 0 ≤ v) :
    ∀ v, avgOpt r t = some v → 0 ≤ v := by
  intro v hv
  rcases r with _ | a
  · exact absurd hv (by simp [avgOpt])
  rcases t with _ | b
  · exact absurd hv (by simp [avgOpt])
  have ha : 0 ≤ a := hr a rfl
  have hb : 0 ≤ b := ht b rfl
  obtain rfl : (a + b) / 2 = v := by
    simpa [avgOpt] using hv
  linarith

theorem patternFromScore_bounds (o : Option ℚ) (h : ∀ v, o = some v → 0 ≤ v) :
    0 ≤ patternFromScore o ∧ patternFromScore o ≤ 3 / 10 := by
  cases o with
  | none => norm_num [patternFromScore]
  | some v =>
      have hv : 0 ≤ v := h v rfl
      unfold patternFromScore
      constructor
      · apply le_min (by norm_num)
        positivity
      · exact min_le_left _ _

theorem patternInstability_bounds (w : ℕ) (l : List Trade) :
    0 ≤ patternInstability w l ∧ patternInstability w l ≤ 3 / 10 := by
  unfold patternInstability
  dsimp only []
  split
  · norm_num
  · apply patternFromScore_bounds
    apply avgOpt_nonneg <;>
      apply ratioOpt_nonneg <;>
        (intro v hv
         apply meanSkip_nonneg ?_ hv
         intro o ho u hu
         first
           | exact rollingVar_nonneg (lastN_mem ho) hu
           | exact rollingVar_nonneg ho hu)

theorem detectChangePoints_const (l : List Trade) : detectChangePoints l = 1 / 20 := by
  unfold detectChangePoints
  dsimp only []
  split <;> rfl

theorem momentumShifts_bounds (l : List Trade) :
    0 ≤ momentumShifts l ∧ momentumShifts l ≤ 1 / 5 := by
  unfold momentumShifts
  dsimp only []
  split
  · norm_num
  · constructor
    · apply le_min (by norm_num)
      positivity
    · exact min_le_left _ _

theorem flipAcceleration_bounds (l : List Trade) :
    0 ≤ flipAcceleration l ∧ flipAcceleration l ≤ 3 / 20 := by
  unfold flipAcceleration
  dsimp only []
  split_ifs <;> norm_num

theorem featureDrift_bounds (f : Option FeatureDict) :
    0 ≤ featureDrift f ∧ featureDrift f ≤ 1 / 10 := by
  cases f with
  | none => norm_num [featureDrift]
  | some d =>
      unfold featureDrift
      rcases d with ⟨b, h, a⟩
      constructor
      · apply le_min (by norm_num)
        rcases b with _ | b <;> rcases h with _ | h <;> rcases a with _ | a <;>
          (dsimp only []) <;> (try split_ifs) <;> norm_num
      · exact min_le_left _ _

theorem rhe_le_int {x : ℚ} {k : ℤ} (h : x ≤ (k : ℚ)) : rhe x ≤ k := by
  have hfk : ⌊x⌋ ≤ k := by
    have h1 := Int.floor_le_floor h
    simpa using h1
  have hfl : (⌊x⌋ : ℚ) ≤ x := Int.floor_le x
  have key : ¬(x - (⌊x⌋ : ℚ) < 1 / 2) → ⌊x⌋ + 1 ≤ k := by
    intro h1
    rcases eq_or_lt_of_le hfk with he | hl
    · exfalso
      apply h1
      have hx : x = (⌊x⌋ : ℚ) := by
        apply le_antisymm ?_ hfl
        rw [he]
        exact h
      rw [← hx]
      norm_num
    · omega
  unfold rhe
  dsimp only []
  split_ifs with h1 h2 h3
  · exact hfk
  · exact key h1
  · exact hfk
  · exact key h1

theorem int_le_rhe {x : ℚ} {k : ℤ} (h : (k : ℚ) ≤ x) : k ≤ rhe x := by
  have hfk : k ≤ ⌊x⌋ := Int.le_floor.mpr h
  unfold rhe
  dsimp only []
  split_ifs <;> omega

theorem roundTo_le_of_le (d : ℕ) (x c : ℚ) (b : ℤ) (hb : (b : ℚ) = c * 10 ^ d)
    (h : x ≤ c) : roundTo d x ≤ c := by
  have hpow : (0 : ℚ) < 10 ^ d := by positivity
  have h1 : x * 10 ^ d ≤ (b : ℚ) := by
    rw [hb]
    exact mul_le_mul_of_nonneg_right h hpow.le
  have h2 : rhe (x * 10 ^ d) ≤ b := rhe_le_int h1
  unfold roundTo
  rw [div_le_iff₀ hpow, ← hb]
  exact_mod_cast h2

theorem le_roundTo_of_le (d : ℕ) (x c : ℚ) (a : ℤ) (ha : (a : ℚ) = c * 10 ^ d)
    (h : c ≤ x) : c ≤ roundTo d x := by
  have hpow : (0 : ℚ) < 10 ^ d := by positivity
  have h1 : (a : ℚ) ≤ x * 10 ^ d := by
    rw [ha]
    exact mul_le_mul_of_nonneg_right h hpow.le
  have h2 : a ≤ rhe (x * 10 ^ d) := int_le_rhe h1
  unfold roundTo
  rw [le_div_iff₀ hpow, ← ha]
  exact_mod_cast h2

/-!  Structural facts about `calculate` and `calcTotal`: the value on
the empty-input path, on the parse-failure path, and on the normal
path (where the returned record is the rounding of the raw scores). -/

theorem calculate_empty (cfg : Config) (pos : Positions) (feats : Option FeatureDict) :
    calculate cfg [] pos feats = baselineResult cfg "No trading history" := rfl

theorem calculate_eq (cfg : Config) (trades : List Trade) (pos : Positions)
    (feats : Option FeatureDict) (h : ¬(trades = [])) :
    calculate cfg trades pos feats =
      ⟨roundTo 2 (max (3 / 20) (min (17 / 20)
          (cfg.baselineProb +
            (patternInstability cfg.windowSize (sortByTs trades) +
              detectChangePoints (sortByTs trades) +
              momentumShifts (sortByTs trades) +
              flipAcceleration (sortByTs trades) +
              featureDrift feats)))),
        roundTo 3 (patternInstability cfg.windowSize (sortByTs trades)),
        roundTo 3 (detectChangePoints (sortByTs trades)),
        roundTo 3 (momentumShifts (sortByTs trades)),
        roundTo 3 (flipAcceleration (sortByTs trades)),
        roundTo 3 (featureDrift feats),
        buildReasoning (patternInstability cfg.windowSize (sortByTs trades))
          (detectChangePoints (sortByTs trades))
          (momentumShifts (sortByTs trades))
          (flipAcceleration (sortByTs trades))
          (featureDrift feats)
          (max (3 / 20) (min (17 / 20)
            (cfg.baselineProb +
              (patternInstability cfg.windowSize (sortByTs trades) +
                detectChangePoints (sortByTs trades) +
                momentumShifts (sortByTs trades) +
                flipAcceleration (sortByTs trades) +
                featureDrift feats))))⟩ := by
  unfold calculate
  rw [if_neg h]

theorem calcTotal_empty (cfg : Config) (pos : Positions) (feats : Option FeatureDict) :
    calcTotal cfg [] pos feats = baselineResult cfg "No trading history" := rfl

theorem calcTotal_err {rts : List RawTrade} {e : String} (h : ¬(rts = []))
    (hp : parseTrades rts = .error e) (cfg : Config) (pos : Positions)
    (feats : Option FeatureDict) :
    calcTotal cfg rts pos feats = baselineResult cfg ("Error: " ++ e) := by
  unfold calcTotal
  rw [if_neg h, hp]

theorem calcTotal_ok {rts : List RawTrade} {ts : List Trade} (h : ¬(rts = []))
    (hp : parseTrades rts = .ok ts) (cfg : Config) (pos : Positions)
    (feats : Option FeatureDict) :
    calcTotal cfg rts pos feats = calculate cfg ts pos feats := by
  unfold calcTotal
  rw [if_neg h, hp]

/-- The switch probability returned on the normal path lies in the
clamp range, for any configuration. -/
theorem calculate_switch_prob_in_range (cfg : Config) (trades : List Trade)
    (pos : Positions) (feats : Option FeatureDict) (h : ¬(trades = [])) :
    3 / 20 ≤ (calculate cfg trades pos feats).switch_prob ∧
      (calculate cfg trades pos feats).switch_prob ≤ 17 / 20 := by
  rw [calculate_eq cfg trades pos feats h]
  dsimp only []
  constructor
  · exact le_roundTo_of_le 2 _ (3 / 20) 15 (by norm_num) (le_max_left _ _)
  · refine roundTo_le_of_le 2 _ (17 / 20) 85 (by norm_num) ?_
    exact max_le (by norm_num) (min_le_left _ _)

/-- The five component scores returned on the normal path are the
3-decimal roundings of raw scores in their documented ranges. -/
theorem calculate_components_bounded (cfg : Config) (trades : List Trade)
    (pos : Positions) (feats : Option FeatureDict) (h : ¬(trades = [])) :
    (0 ≤ (calculate cfg trades pos feats).pattern_instability ∧
      (calculate cfg trades pos feats).pattern_instability ≤ 3 / 10) ∧
    (0 ≤ (calculate cfg trades pos feats).change_point ∧
      (calculate cfg trades pos feats).change_point ≤ 1 / 4) ∧
    (0 ≤ (calculate cfg trades pos feats).momentum_shift ∧
      (calculate cfg trades pos feats).momentum_shift ≤ 1 / 5) ∧
    (0 ≤ (calculate cfg trades pos feats).flip_acceleration ∧
      (calculate cfg trades pos feats).flip_acceleration ≤ 3 / 20) ∧
    (0 ≤ (calculate cfg trades pos feats).feature_drift ∧
      (calculate cfg trades pos feats).feature_drift ≤ 1 / 10) := by
  rw [calculate_eq cfg trades pos feats h]
  dsimp only []
  obtain ⟨hp1, hp2⟩ := patternInstability_bounds cfg.windowSize (sortByTs trades)
  have hcp := detectChangePoints_const (sortByTs trades)
  obtain ⟨hm1, hm2⟩ := momentumShifts_bounds (sortByTs trades)
  obtain ⟨hf1, hf2⟩ := flipAcceleration_bounds (sortByTs trades)
  obtain ⟨hd1, hd2⟩ := featureDrift_bounds feats
  refine ⟨⟨?_, ?_⟩, ⟨?_, ?_⟩, ⟨?_, ?_⟩, ⟨?_, ?_⟩, ?_, ?_⟩
  · exact le_roundTo_of_le 3 _ 0 0 (by norm_num) hp1
  · exact roundTo_le_of_le 3 _ (3 / 10) 300 (by norm_num) hp2
  · exact le_roundTo_of_le 3 _ 0 0 (by norm_num) (by rw [hcp]; norm_num)
  · exact roundTo_le_of_le 3 _ (1 / 4) 250 (by norm_num) (by rw [hcp]; norm_num)
  · exact le_roundTo_of_le 3 _ 0 0 (by norm_num) hm1
  · exact roundTo_le_of_le 3 _ (1 / 5) 200 (by norm_num) hm2
  · exact le_roundTo_of_le 3 _ 0 0 (by norm_num) hf1
  · exact roundTo_le_of_le 3 _ (3 / 20) 150 (by norm_num) hf2
  · exact le_roundTo_of_le 3 _ 0 0 (by norm_num) hd1
  · exact roundTo_le_of_le 3 _ (1 / 10) 100 (by norm_num) hd2

/-!  The claims. -/

/-- Claim C1, counterexample: with `baseline_prob = 0.9` (a
configuration the constructor accepts) and empty trades, `calculate`
returns the baseline result whose `switch_prob` is `0.9`, outside
`[0.15, 0.85]` — the degraded paths return the configured baseline
without clamping, so the claimed invariant fails for this
configuration. -/
theorem claim1_counterexample :
    (calcTotal cfg90 [] [] none).switch_prob = 9 / 10 ∧
      ¬((calcTotal cfg90 [] [] none).switch_prob ≤ 17 / 20) := by
  have h : (calcTotal cfg90 [] [] none).switch_prob = 9 / 10 := rfl
  refine ⟨h, ?_⟩
  rw [h]
  norm_num

/-- Claim C1, amended: for every structurally valid input and every
configuration whose `baseline_prob` lies in `[0.15, 0.85]` (the
default `0.30` does), the returned `switch_prob` lies in
`[0.15, 0.85]` on every path — the normal path clamps and needs no
hypothesis, while the degraded paths return `baseline_prob` itself. -/
theorem claim1_switch_prob_in_range (cfg : Config) (rts : List RawTrade)
    (pos : Positions) (feats : Option FeatureDict)
    (h1 : 3 / 20 ≤ cfg.baselineProb) (h2 : cfg.baselineProb ≤ 17 / 20) :
    3 / 20 ≤ (calcTotal cfg rts pos feats).switch_prob ∧
      (calcTotal cfg rts pos feats).switch_prob ≤ 17 / 20 := by
  by_cases he : rts = []
  · subst he
    rw [calcTotal_empty]
    exact ⟨h1, h2⟩
  · cases hp : parseTrades rts with
    | error e =>
        rw [calcTotal_err he hp]
        exact ⟨h1, h2⟩
    | ok ts =>
        rw [calcTotal_ok he hp]
        by_cases hts : ts = []
        · subst hts
          rw [calculate_empty]
          exact ⟨h1, h2⟩
        · exact calculate_switch_prob_in_range cfg ts pos feats hts

/-- Claim C1, witness: the amended range invariant at the default
configuration on a one-trade input. -/
theorem claim1_witness :
    3 / 20 ≤ (calcTotal defaultCfg [rawT0] [] none).switch_prob ∧
      (calcTotal defaultCfg [rawT0] [] none).switch_prob ≤ 17 / 20 :=
  claim1_switch_prob_in_range defaultCfg [rawT0] [] none
    (by norm_num [defaultCfg]) (by norm_num [defaultCfg])

/-- Claim C2: on every input and every path (normal, empty-trades,
parse-error), each of the five component scores returned by
`calculate` is non-negative and bounded by its documented maximum
(0.30 / 0.25 / 0.20 / 0.15 / 0.10). -/
theorem claim2_component_bounds (cfg : Config) (rts : List RawTrade)
    (pos : Positions) (feats : Option FeatureDict) :
    (0 ≤ (calcTotal cfg rts pos feats).pattern_instability ∧
      (calcTotal cfg rts pos feats).pattern_instability ≤ 3 / 10) ∧
    (0 ≤ (calcTotal cfg rts pos feats).change_point ∧
      (calcTotal cfg rts pos feats).change_point ≤ 1 / 4) ∧
    (0 ≤ (calcTotal cfg rts pos feats).momentum_shift ∧
      (calcTotal cfg rts pos feats).momentum_shift ≤ 1 / 5) ∧
    (0 ≤ (calcTotal cfg rts pos feats).flip_acceleration ∧
      (calcTotal cfg rts pos feats).flip_acceleration ≤ 3 / 20) ∧
    (0 ≤ (calcTotal cfg rts pos feats).feature_drift ∧
      (calcTotal cfg rts pos feats).feature_drift ≤ 1 / 10) := by
  by_cases he : rts = []
  · subst he
    rw [calcTotal_empty]
    refine ⟨⟨?_, ?_⟩, ⟨?_, ?_⟩, ⟨?_, ?_⟩, ⟨?_, ?_⟩, ?_, ?_⟩ <;>
      norm_num [baselineResult]
  · cases hp : parseTrades rts with
    | error e =>
        rw [calcTotal_err he hp]
        refine ⟨⟨?_, ?_⟩, ⟨?_, ?_⟩, ⟨?_, ?_⟩, ⟨?_, ?_⟩, ?_, ?_⟩ <;>
          norm_num [baselineResult]
    | ok ts =>
        rw [calcTotal_ok he hp]
        by_cases hts : ts = []
        · subst hts
          rw [calculate_empty]
          refine ⟨⟨?_, ?_⟩, ⟨?_, ?_⟩, ⟨?_, ?_⟩, ⟨?_, ?_⟩, ?_, ?_⟩ <;>
            norm_num [baselineResult]
        · exact calculate_components_bounded cfg ts pos feats hts

/-- Claim C3: with an empty trade history, `calculate` returns the
configured baseline probability exactly, all five component scores
exactly `0.0` and a reasoning string naming the cause, and no
exception escapes (the raw-input semantics yields `ok`). -/
theorem claim3_empty_trades (cfg : Config) (pos : Positions)
    (feats : Option FeatureDict) :
    (calcTotal cfg [] pos feats).switch_prob = cfg.baselineProb ∧
    (calcTotal cfg [] pos feats).pattern_instability = 0 ∧
    (calcTotal cfg [] pos feats).change_point = 0 ∧
    (calcTotal cfg [] pos feats).momentum_shift = 0 ∧
    (calcTotal cfg [] pos feats).flip_acceleration = 0 ∧
    (calcTotal cfg [] pos feats).feature_drift = 0 ∧
    (calcTotal cfg [] pos feats).reasoning =
      "Using baseline probability. No trading history" ∧
    calcRawE cfg [] pos feats = Except.ok (calcTotal cfg [] pos feats) :=
  ⟨rfl, rfl, rfl, rfl, rfl, rfl, rfl, rfl⟩

/-- Claim C4, counterexample: with the default configuration, a
single trade does not return the baseline `0.30` — each scorer falls
back to its nominal `0.05`, not `0.0`. -/
theorem claim4_counterexample :
    (calculate defaultCfg [t0] [] none).switch_prob ≠ 3 / 10 := by
  with_unfolding_all decide

/-- Claim C4, amended: a single trade (default configuration, no
features) yields `switch_prob = 0.50` — the baseline `0.30` plus four
nominal `0.05` insufficient-data fallbacks — and a reasoning string
reporting moderate risk and stable patterns, with no insufficiency
note. -/
theorem claim4_single_trade :
    calculate defaultCfg [t0] [] none =
      ⟨1 / 2, 1 / 20, 1 / 20, 1 / 20, 1 / 20, 0,
       "MODERATE risk of strategy switch. Factors: Stable behavior patterns."⟩ := by
  with_unfolding_all decide

/-- Claim C5: the code counts the very first position-opening trade of
an instrument as a flip (the `position_sign.diff()` of the first row
is `NaN`, and `NaN != 0` is `True`), contradicting the claim and the
function's own docstring: a single trade yields one flip on its date,
and so does a two-trade sequence whose running position never crosses
zero. -/
theorem claim5_establishment_counted :
    computeDailyFlips (sortByTs [t0]) = [(0, 1)] ∧
      computeDailyFlips (sortByTs [⟨0, 0, 0, true, 5⟩, ⟨1, 0, 0, true, 3⟩]) =
        [(0, 1)] := by
  with_unfolding_all decide

/-- Claim C6: the change-point scorer returns `0.05` on every input —
the CUSUM test and its recency tiers are dead code behind the
`pd.Series(daily_flips.values)` slip — even on an input
(`c6Trades`) whose flip series is 24 flat days followed by a jump,
where the CUSUM code as written (embedded as `intendedChangePoint`,
with the series mean `6/5` and exact sample standard deviation `1`)
flags the final day and would score the top tier `0.25`. -/
theorem claim6_change_point_dead :
    (∀ l : List Trade, detectChangePoints l = 1 / 20) ∧
      (computeDailyFlips (sortByTs c6Trades)).map (fun p => ((p.2 : ℚ))) = c6Series ∧
      qmean c6Series = 6 / 5 ∧ sampleVar c6Series = 1 ∧
      intendedChangePoint c6Series (6 / 5) 1 = 1 / 4 := by
  refine ⟨detectChangePoints_const, ?_⟩
  with_unfolding_all decide

/-- Claim C7, counterexample: on fourteen all-BUY days the claim's
formula gives `0` (no long/short reversal ever occurs), but the code
scores `1/35`: its `diff() != 0` count always includes the first day
(its `diff()` is `NaN`) and also counts transitions into or out of
flat days. -/
theorem claim7_counterexample :
    momentumShifts (sortByTs trades14) = 1 / 35 ∧
      momentumShiftsSpec (sortByTs trades14) = 0 ∧
      momentumShifts (sortByTs trades14) ≠ momentumShiftsSpec (sortByTs trades14) := by
  with_unfolding_all decide

/-- Claim C7, amended: with at least 14 days of daily net signed
quantity, the momentum score equals `min(0.20, r × 0.40)` where `r` is
the `diff() != 0` count over the daily sign series (first observed day
always included, transitions to or from flat days included) divided by
the number of observed days. -/
theorem claim7_momentum_formula (l : List Trade)
    (h : 14 ≤ (dailyNetList l).length) :
    momentumShifts l =
      min (1 / 5) ((((signChangeCountCode ((dailyNetList l).map qsign)) : ℚ) /
        ((dailyNetList l).length : ℚ)) * (2 / 5)) := by
  unfold momentumShifts
  dsimp only []
  rw [if_neg (by omega)]

/-- Claim C7, witness: the amended formula evaluated on the fourteen
all-BUY days, where the count is 1 and the score `1/35`. -/
theorem claim7_witness :
    14 ≤ (dailyNetList (sortByTs trades14)).length ∧
      momentumShifts (sortByTs trades14) =
        min (1 / 5) ((((signChangeCountCode ((dailyNetList (sortByTs trades14)).map qsign)) : ℚ) /
          ((dailyNetList (sortByTs trades14)).length : ℚ)) * (2 / 5)) :=
  ⟨by with_unfolding_all decide,
   claim7_momentum_formula (sortByTs trades14) (by with_unfolding_all decide)⟩

/-- Claim C8, counterexample: an input with a timestamp that
`pd.to_datetime` cannot parse does not fail the call — the top-level
handler catches the error and returns the baseline result with an
`Error: ...` reasoning, so a malformed-timestamp input-contract
violation is not a condition under which the call fails outright. -/
theorem claim8_counterexample :
    calcRawE defaultCfg [badRawTrade] [] none =
      Except.ok (baselineResult defaultCfg "Error: malformed timestamp") := by
  with_unfolding_all rfl

/-- Claim C8, amended: `calculate` never fails on any input at all —
every path, the malformed-timestamp path included, yields `ok` with
the documented total result (scorer-internal failures having been
absorbed into their nominal fallbacks). -/
theorem claim8_never_raises (cfg : Config) (rts : List RawTrade)
    (pos : Positions) (feats : Option FeatureDict) :
    calcRawE cfg rts pos feats = Except.ok (calcTotal cfg rts pos feats) := by
  by_cases he : rts = []
  · subst he
    rfl
  · cases hp : parseTrades rts with
    | error e =>
        unfold calcRawE calcBody calcTotal
        rw [if_neg he, if_neg he, hp]
    | ok ts =>
        unfold calcRawE calcBody calcTotal
        rw [if_neg he, if_neg he, hp]

/-- Claim C9: the calculator is deterministic — two invocations with
identical trades, positions, features and configuration return
identical results; the embedding is a pure function of exactly these
arguments (the source reads no clock and no randomness; its only other
effect is logging, which does not influence the returned dict). -/
theorem claim9_deterministic (cfg cfg2 : Config) (rts rts2 : List RawTrade)
    (pos pos2 : Positions) (feats feats2 : Option FeatureDict)
    (hc : cfg = cfg2) (ht : rts = rts2) (hp : pos = pos2) (hf : feats = feats2) :
    calcTotal cfg rts pos feats = calcTotal cfg2 rts2 pos2 feats2 := by
  subst hc
  subst ht
  subst hp
  subst hf
  rfl

/-- Claim C9, witness: determinism applied at a concrete input. -/
theorem claim9_witness :
    calcTotal defaultCfg [rawT0] [] none = calcTotal defaultCfg [rawT0] [] none :=
  claim9_deterministic defaultCfg defaultCfg [rawT0] [rawT0] [] [] none none
    rfl rfl rfl rfl

/-- Claim C10: on the normal path the returned `switch_prob` is the
2-decimal rounding of the clamped pre-rounding probability and each
returned component is the 3-decimal rounding of its raw score (so the
pre-rounding values satisfy the aggregation formula by construction),
and at a concrete input the returned fields do not satisfy
`switch_prob = baseline + sum of returned components`
(0.43 ≠ 0.30 + 0.129). -/
theorem claim10_rounding :
    (∀ (cfg : Config) (trades : List Trade) (pos : Positions)
        (feats : Option FeatureDict), ¬(trades = []) →
      calculate cfg trades pos feats =
        ⟨roundTo 2 (max (3 / 20) (min (17 / 20)
            (cfg.baselineProb +
              (patternInstability cfg.windowSize (sortByTs trades) +
                detectChangePoints (sortByTs trades) +
                momentumShifts (sortByTs trades) +
                flipAcceleration (sortByTs trades) +
                featureDrift feats)))),
          roundTo 3 (patternInstability cfg.windowSize (sortByTs trades)),
          roundTo 3 (detectChangePoints (sortByTs trades)),
          roundTo 3 (momentumShifts (sortByTs trades)),
          roundTo 3 (flipAcceleration (sortByTs trades)),
          roundTo 3 (featureDrift feats),
          buildReasoning (patternInstability cfg.windowSize (sortByTs trades))
            (detectChangePoints (sortByTs trades))
            (momentumShifts (sortByTs trades))
            (flipAcceleration (sortByTs trades))
            (featureDrift feats)
            (max (3 / 20) (min (17 / 20)
              (cfg.baselineProb +
                (patternInstability cfg.windowSize (sortByTs trades) +
                  detectChangePoints (sortByTs trades) +
                  momentumShifts (sortByTs trades) +
                  flipAcceleration (sortByTs trades) +
                  featureDrift feats))))⟩) ∧
    (calculate defaultCfg trades14 [] none).switch_prob ≠
      3 / 10 + ((calculate defaultCfg trades14 [] none).pattern_instability +
        (calculate defaultCfg trades14 [] none).change_point +
        (calculate defaultCfg trades14 [] none).momentum_shift +
        (calculate defaultCfg trades14 [] none).flip_acceleration +
        (calculate defaultCfg trades14 [] none).feature_drift) := by
  refine ⟨calculate_eq, ?_⟩
  with_unfolding_all decide

/-- Claim C10, witness: the rounding description instantiated at the
fourteen-day input. -/
theorem claim10_witness :
    calculate defaultCfg trades14 [] none =
      ⟨roundTo 2 (max (3 / 20) (min (17 / 20)
          (defaultCfg.baselineProb +
            (patternInstability defaultCfg.windowSize (sortByTs trades14) +
              detectChangePoints (sortByTs trades14) +
              momentumShifts (sortByTs trades14) +
              flipAcceleration (sortByTs trades14) +
              featureDrift none)))),
        roundTo 3 (patternInstability defaultCfg.windowSize (sortByTs trades14)),
        roundTo 3 (detectChangePoints (sortByTs trades14)),
        roundTo 3 (momentumShifts (sortByTs trades14)),
        roundTo 3 (flipAcceleration (sortByTs trades14)),
        roundTo 3 (featureDrift none),
        buildReasoning (patternInstability defaultCfg.windowSize (sortByTs trades14))
          (detectChangePoints (sortByTs trades14))
          (momentumShifts (sortByTs trades14))
          (flipAcceleration (sortByTs trades14))
          (featureDrift none)
          (max (3 / 20) (min (17 / 20)
            (defaultCfg.baselineProb +
              (patternInstability defaultCfg.windowSize (sortByTs trades14) +
                detectChangePoints (sortByTs trades14) +
                momentumShifts (sortByTs trades14) +
                flipAcceleration (sortByTs trades14) +
                featureDrift none))))⟩ :=
  claim10_rounding.1 defaultCfg trades14 [] none (by with_unfolding_all decide)

end SwitchProb
